import Mathlib

/-!
Shallow embedding of the TechBlog automation core
(src/automation/content_generator.py and src/automation/scheduler.py).

Timestamps are natural numbers counted in minutes; a calendar day is
1440 minutes, so `dateOf t = t / 1440` models `date(published_at)`.
Randomness (`random.choice l`) is modelled by an explicit index `i`
selecting `l[i % len l]`; on an empty list the choice is `none`
(Python raises `IndexError`, which the source catches).
-/

namespace TechBlog

def minutesPerDay : Nat := 1440

/-- Model of `db.func.date` / `datetime.date()`: the calendar day of a timestamp. -/
def dateOf (t : Nat) : Nat := t / minutesPerDay

/-- `src/models/blog.py` Country: id, name, region (economic scalars are
gate-irrelevant context and are omitted from the selection model). -/
structure Country where
  id : Nat
  name : String
  region : String
deriving DecidableEq, Repr

/-- `src/models/blog.py` Technology: id, name, category. -/
structure Technology where
  id : Nat
  name : String
  category : String
deriving DecidableEq, Repr

/-- A persisted BlogPost row, restricted to the fields the Selector, the
daily cycle and the manual trigger read or write (`country_id`,
`technology_id`, `published_at`, `status`, plus the draft fields the
insert copies). -/
structure Post where
  country_id : Nat
  technology_id : Nat
  published_at : Nat
  status : String
  word_count : Int
  title : String
deriving DecidableEq, Repr

/-- Model of Python `random.choice l` given a random index `i`:
a member `l[i % len l]`, or `none` when `l` is empty (`IndexError`). -/
def pchoice {α : Type} (l : List α) (i : Nat) : Option α :=
  if h : i % l.length < l.length then some (l.get ⟨i % l.length, h⟩) else none

/-- First-occurrence deduplication, the key order of a Python dict built by
insertion (`regions` in `select_daily_country`). -/
def firstDedupAux (seen : List String) : List String → List String
  | [] => []
  | r :: rs =>
    if r ∈ seen then firstDedupAux seen rs
    else r :: firstDedupAux (r :: seen) rs

/-- `content_generator.py:55-58`: number of posts for country `cid`
published since the start of the current month. -/
def monthlyCount (posts : List Post) (monthStart : Nat) (cid : Nat) : Nat :=
  (posts.filter (fun p => p.country_id == cid && decide (monthStart ≤ p.published_at))).length

/-- `content_generator.py:52-65`: countries below the monthly quota,
falling back to all countries when every quota is exhausted. -/
def availableCountries (countries : List Country) (posts : List Post)
    (monthStart maxPosts : Nat) : List Country :=
  if (countries.filter (fun c => decide (monthlyCount posts monthStart c.id < maxPosts))).isEmpty
  then countries
  else countries.filter (fun c => decide (monthlyCount posts monthStart c.id < maxPosts))

/-- The regions present in a country list, in first-occurrence order
(the insertion order of the `regions` dict at `content_generator.py:78-82`). -/
def regionsOf (l : List Country) : List String :=
  firstDedupAux [] (l.map (·.region))

/-- `content_generator.py:67-95`: the strategy dispatch of
`select_daily_country`. Any strategy other than `random` and
`regional_focus` takes the `balanced_regional` branch (the default), and
that branch never returns: at line 87 the int returned by `.count()` is
passed to `sum(...)`, raising `TypeError` on every iteration of the
region loop (and when the available pool is empty, `min` over the empty
`region_counts` dict raises `ValueError`), so the branch always escapes
to the `except` handler — modelled as `none`. -/
def selectResult (strategy : String) (maxPosts : Nat) (countries : List Country)
    (posts : List Post) (monthStart r1 r2 : Nat) : Option Country :=
  if strategy == "random" then
    pchoice (availableCountries countries posts monthStart maxPosts) r1
  else if strategy == "regional_focus" then
    match pchoice (regionsOf (availableCountries countries posts monthStart maxPosts)) r1 with
    | none => none
    | some reg =>
      pchoice ((availableCountries countries posts monthStart maxPosts).filter
        (fun c => c.region == reg)) r2
  else none

/-- `content_generator.py:35-101` `ContentGenerator.select_daily_country`:
strategy dispatch over the quota-filtered countries; the `except` handler
(lines 97-101) — reached by `IndexError` on an empty pool and, on every
run of the default `balanced_regional` branch, by the `sum(int)`
`TypeError` at line 87 — falls back to a random choice over ALL countries
ignoring the quota, returning `None` only when there are no countries. -/
def select_daily_country (strategy : String) (maxPosts : Nat) (countries : List Country)
    (posts : List Post) (monthStart r1 r2 : Nat) : Option Country :=
  match selectResult strategy maxPosts countries posts monthStart r1 r2 with
  | some c => some c
  | none => pchoice countries r2

/-- `content_generator.py:107-113`: ids of technologies used for this
country within the last 30 days (`technology_cooldown_days`). -/
def recentTechIds (country : Country) (posts : List Post) (now : Nat) : List Nat :=
  (posts.filter (fun p =>
    p.country_id == country.id && decide (now - 30 * minutesPerDay ≤ p.published_at))).map
    (·.technology_id)

/-- `content_generator.py:123-133`: the per-region preferred category table. -/
def preferredCategories (region : String) : List String :=
  if region == "Africa" then ["Fintech", "Government", "Agriculture"]
  else if region == "Asia" then ["AI/ML", "Infrastructure", "Government"]
  else if region == "Latin America" then ["Fintech", "Education", "Energy"]
  else ["AI/ML", "Fintech", "Infrastructure"]

/-- `content_generator.py:115-120`: technologies outside the cooldown
window, falling back to all technologies when none remain. -/
def availableTechs (country : Country) (techs : List Technology)
    (posts : List Post) (now : Nat) : List Technology :=
  if (techs.filter (fun t => !((recentTechIds country posts now).contains t.id))).isEmpty
  then techs
  else techs.filter (fun t => !((recentTechIds country posts now).contains t.id))

/-- `content_generator.py:135-144`: choose from the preferred-category
subset when it is non-empty, else from the whole candidate pool. -/
def techResult (country : Country) (techs : List Technology)
    (posts : List Post) (now r1 : Nat) : Option Technology :=
  if !((availableTechs country techs posts now).filter
      (fun t => (preferredCategories country.region).contains t.category)).isEmpty
  then pchoice ((availableTechs country techs posts now).filter
    (fun t => (preferredCategories country.region).contains t.category)) r1
  else pchoice (availableTechs country techs posts now) r1

/-- `content_generator.py:103-149` `select_technology_for_country`:
drop technologies used for this country within the cooldown window,
falling back to all technologies when none remain; prefer the region's
categories, else choose from the whole candidate pool; the `except`
handler (146-149) falls back to a random choice over all technologies. -/
def select_technology_for_country (country : Country) (techs : List Technology)
    (posts : List Post) (now r1 : Nat) : Option Technology :=
  match techResult country techs posts now r1 with
  | some t => some t
  | none => pchoice techs r1

/-! ## Drafts and the quality gate (`src/automation/scheduler.py`) -/

/-- A Python value stored under a draft-dict key: the quality check only
distinguishes ints from strings (a string `word_count` makes `< 800`
raise `TypeError`; an int `content` makes `.lower()` raise). -/
inductive PyVal where
  | vint : Int → PyVal
  | vstr : String → PyVal
deriving DecidableEq, Repr

/-- The `blog_data` dict as seen by `BlogScheduler._quality_check`: each
key may be absent (`KeyError`) or hold a value of the wrong type. -/
structure DraftDict where
  word_count : Option PyVal
  content : Option PyVal
  title : Option PyVal
deriving DecidableEq, Repr

/-- A well-formed draft as `ContentGenerator.generate_blog_post` returns it
(`content_generator.py:317-324`): title, body and word count (excerpt,
tags and reading time are gate-irrelevant). -/
structure Draft where
  title : String
  content : String
  word_count : Int
deriving DecidableEq, Repr

def Draft.toDict (d : Draft) : DraftDict :=
  { word_count := some (.vint d.word_count)
    content := some (.vstr d.content)
    title := some (.vstr d.title) }

/-- `leadsWith needle l` : `needle` is an initial segment of `l`. -/
def leadsWith : List Char → List Char → Bool
  | [], _ => true
  | _ :: _, [] => false
  | a :: as, b :: bs => a == b && leadsWith as bs

/-- `needle` occurs as a contiguous run inside the second list. -/
def containsChars (needle : List Char) : List Char → Bool
  | [] => leadsWith needle []
  | b :: bs => leadsWith needle (b :: bs) || containsChars needle bs

/-- Python `str.lower()` as character-wise ASCII case folding. -/
def lowerChars (s : String) : List Char :=
  s.toList.map Char.toLower

/-- Python `needle in lowered` for the lowercased body text. -/
def strContains (lowered : List Char) (needle : String) : Bool :=
  containsChars needle.toList lowered

/-- `scheduler.py:254`. -/
def required_keywords : List String := ["gdp", "economy", "technology", "development"]

/-- `scheduler.py:244-271` `BlogScheduler._quality_check`: word count floor,
keyword presence in the lowercased body, title length; every exception
path (missing key, `TypeError` on `< 800` with a string word count,
`.lower()`/`len` on an int) is caught by the `except` and yields `False`. -/
def _quality_check (d : DraftDict) : Bool :=
  match d.word_count with
  | none => false
  | some (.vstr _) => false
  | some (.vint wc) =>
    if wc < 800 then false
    else
      match d.content with
      | none => false
      | some (.vint _) => false
      | some (.vstr body) =>
        if (required_keywords.filter (fun k => strContains (lowerChars body) k)).length < 2
        then false
        else
          match d.title with
          | none => false
          | some (.vint _) => false
          | some (.vstr title) =>
            if title.length < 20 then false else true

/-- `content_generator.py:406-415` `_generate_fallback_content`: placeholder
draft substituted when AI generation fails; its `word_count` is the
constant 50. -/
def _generate_fallback_content (c : Country) (t : Technology) : Draft :=
  { title := t.name ++ " Transformation in " ++ c.name
    content := "This is a placeholder blog post about how " ++ t.name ++
      " is transforming " ++ c.name ++ ". The automated content generation system " ++
      "encountered an issue, but this post has been created to maintain the publishing schedule."
    word_count := 50 }

/-! ## Daily cycle and manual trigger (`src/automation/scheduler.py`) -/

/-- The automation configuration the cycle reads fresh each run. -/
structure Config where
  daily_posting_enabled : Bool
  strategy : String
  maxPosts : Nat
deriving DecidableEq, Repr

/-- `content_generator.py:287-328` `generate_blog_post`: the external
generator either returns a draft or raises; on exception the fallback
placeholder draft is substituted. -/
def draftOf (gen : Country → Technology → Option Draft) (c : Country) (t : Technology) : Draft :=
  match gen c t with
  | some d => d
  | none => _generate_fallback_content c t

/-- The column names `models/blog.py:57-95` declares on `BlogPost` — the
only keyword arguments its SQLAlchemy declarative constructor accepts. -/
def blogPostColumns : List String :=
  ["id", "title", "slug", "content", "excerpt", "featured_image_url",
   "country_id", "technology_id", "author_id",
   "gdp_impact", "poverty_impact", "government_impact",
   "meta_description", "meta_keywords",
   "status", "published_at", "scheduled_for",
   "view_count", "share_count", "created_at", "updated_at"]

/-- The keyword arguments `scheduler.py:281-296` passes to `BlogPost(...)`. -/
def createBlogPostKwargs : List String :=
  ["title", "slug", "content", "excerpt", "country_id", "technology_id",
   "status", "published_at", "word_count", "reading_time_minutes",
   "tags", "research_data", "seo_title", "seo_description"]

/-- `scheduler.py:273-321` `_create_blog_post`: the declarative constructor
accepts a keyword argument only for a declared column and raises
`TypeError` otherwise; `word_count`, `reading_time_minutes`, `tags`,
`research_data`, `seo_title` and `seo_description` are not columns of
`BlogPost` (`models/blog.py:57-95`, and `author_id`, NOT NULL, is never
passed), so the insert raises; the `except` at line 318-321 rolls back
and re-raises. On the success path the row would carry the draft's data
with status `published` and `published_at` the current time. -/
def _create_blog_post (c : Country) (t : Technology) (d : Draft) (now : Nat) :
    Except Unit Post :=
  if createBlogPostKwargs.all (fun k => blogPostColumns.contains k)
  then .ok
    { country_id := c.id
      technology_id := t.id
      published_at := now
      status := "published"
      word_count := d.word_count
      title := d.title }
  else .error ()

/-- `scheduler.py:159-228` `BlogScheduler._generate_daily_post`: skip when
daily posting is disabled or a post dated today exists; select country
and technology (abort on failure of either); generate the draft (with
the fallback on generation failure); run the quality gate, aborting on
rejection; otherwise attempt the insert — whose `TypeError` (re-raised by
`_create_blog_post`) is caught by the outer `except` at lines 226-228,
aborting the cycle with the store unchanged. -/
def _generate_daily_post (cfg : Config) (countries : List Country) (techs : List Technology)
    (gen : Country → Technology → Option Draft) (monthStart now r1 r2 r3 : Nat)
    (posts : List Post) : List Post :=
  if !cfg.daily_posting_enabled then posts
  else if posts.any (fun p => dateOf p.published_at == dateOf now) then posts
  else
    match select_daily_country cfg.strategy cfg.maxPosts countries posts monthStart r1 r2 with
    | none => posts
    | some c =>
      match select_technology_for_country c techs posts now r3 with
      | none => posts
      | some t =>
        if _quality_check (draftOf gen c t).toDict
        then
          match _create_blog_post c t (draftOf gen c t) now with
          | .ok row => posts ++ [row]
          | .error _ => posts
        else posts

/-- Number of post rows dated a given calendar day. -/
def postsDatedCount (posts : List Post) (day : Nat) : Nat :=
  (posts.filter (fun p => dateOf p.published_at == day)).length

/-- `scheduler.py:443-446`: the country used by the manual trigger —
looked up by primary key when an id is given, chosen by the selector
otherwise. -/
def manualCountry (countryId : Option Nat) (cfg : Config) (countries : List Country)
    (posts : List Post) (monthStart r1 r2 : Nat) : Option Country :=
  match countryId with
  | some cid => countries.find? (fun c => c.id == cid)
  | none => select_daily_country cfg.strategy cfg.maxPosts countries posts monthStart r1 r2

/-- `scheduler.py:451-454`: the technology used by the manual trigger. -/
def manualTech (techId : Option Nat) (c : Country) (techs : List Technology)
    (posts : List Post) (now r3 : Nat) : Option Technology :=
  match techId with
  | some tid => techs.find? (fun t => t.id == tid)
  | none => select_technology_for_country c techs posts now r3

/-- `scheduler.py:436-485` `trigger_manual_generation`: resolve the country
and technology, generate content (with the fallback on failure), and call
`_create_blog_post` directly — no quality gate and no already-posted-today
check; the insert's `TypeError` is caught by the `except` at lines
483-485, which returns `success = False` with nothing persisted. Returns
the post list and the `success` flag. -/
def trigger_manual_generation (countryId techId : Option Nat) (cfg : Config)
    (countries : List Country) (techs : List Technology)
    (gen : Country → Technology → Option Draft) (monthStart now r1 r2 r3 : Nat)
    (posts : List Post) : List Post × Bool :=
  match manualCountry countryId cfg countries posts monthStart r1 r2 with
  | none => (posts, false)
  | some c =>
    match manualTech techId c techs posts now r3 with
    | none => (posts, false)
    | some t =>
      match _create_blog_post c t (draftOf gen c t) now with
      | .ok row => (posts ++ [row], true)
      | .error _ => (posts, false)

/-! ## Helper lemmas -/

theorem pchoice_mem {α : Type} {l : List α} {i : Nat} {a : α}
    (h : pchoice l i = some a) : a ∈ l := by
  unfold pchoice at h
  split at h
  · exact (Option.some.injEq _ _ ▸ h) ▸ List.get_mem _ _ _
  · exact absurd h (by simp)

theorem pchoice_isSome {α : Type} {l : List α} (i : Nat)
    (h : l ≠ []) : (pchoice l i).isSome = true := by
  unfold pchoice
  have hlen : 0 < l.length := List.length_pos.mpr h
  rw [dif_pos (Nat.mod_lt i hlen)]
  rfl

theorem pchoice_nil {α : Type} (i : Nat) : pchoice ([] : List α) i = none := rfl

theorem pchoice_lt {α : Type} {l : List α} {j : Nat} (hj : j < l.length) :
    pchoice l j = some (l.get ⟨j, hj⟩) := by
  unfold pchoice
  have hmod : j % l.length = j := Nat.mod_eq_of_lt hj
  simp only [hmod]
  exact dif_pos hj

theorem firstDedupAux_subset {a : String} :
    ∀ {seen l : List String}, a ∈ firstDedupAux seen l → a ∈ l := by
  intro seen l
  induction l generalizing seen with
  | nil => intro h; exact absurd h (by simp [firstDedupAux])
  | cons r rs ih =>
    intro h
    unfold firstDedupAux at h
    split at h
    · exact List.mem_cons_of_mem _ (ih h)
    · rcases List.mem_cons.mp h with h1 | h2
      · exact h1 ▸ List.mem_cons_self _ _
      · exact List.mem_cons_of_mem _ (ih h2)

theorem mem_firstDedupAux {a : String} :
    ∀ {l seen : List String}, a ∈ l → a ∈ seen ∨ a ∈ firstDedupAux seen l := by
  intro l
  induction l with
  | nil => intro seen h; exact absurd h (List.not_mem_nil a)
  | cons r rs ih =>
    intro seen h
    unfold firstDedupAux
    rcases List.mem_cons.mp h with h1 | h2
    · subst h1
      split
      · next hseen => exact Or.inl hseen
      · exact Or.inr (List.mem_cons_self _ _)
    · split
      · next hseen => exact ih h2
      · rcases @ih (r :: seen) h2 with hs | hd
        · rcases List.mem_cons.mp hs with h3 | h4
          · exact Or.inr (h3 ▸ List.mem_cons_self _ _)
          · exact Or.inl h4
        · exact Or.inr (List.mem_cons_of_mem _ hd)

theorem mem_regionsOf {c : Country} {l : List Country} (h : c ∈ l) :
    c.region ∈ regionsOf l := by
  have hm : c.region ∈ l.map (·.region) := List.mem_map.mpr ⟨c, h, rfl⟩
  rcases @mem_firstDedupAux c.region (l.map (fun x => x.region)) [] hm with h1 | h2
  · exact absurd h1 (List.not_mem_nil _)
  · exact h2

theorem regionsOf_exists_mem {r : String} {l : List Country} (h : r ∈ regionsOf l) :
    ∃ c ∈ l, c.region = r := by
  have := firstDedupAux_subset h
  exact List.mem_map.mp this

theorem availableCountries_subset {countries : List Country} {posts : List Post}
    {monthStart maxPosts : Nat} {c : Country}
    (h : c ∈ availableCountries countries posts monthStart maxPosts) : c ∈ countries := by
  unfold availableCountries at h
  split at h
  · exact h
  · exact (List.mem_filter.mp h).1

theorem availableCountries_ne_nil {countries : List Country} {posts : List Post}
    {monthStart maxPosts : Nat} (h : countries ≠ []) :
    availableCountries countries posts monthStart maxPosts ≠ [] := by
  unfold availableCountries
  split
  · exact h
  · next hne =>
    intro hnil
    exact hne (by rw [hnil]; rfl)

theorem availableCountries_nil {posts : List Post} {monthStart maxPosts : Nat} :
    availableCountries [] posts monthStart maxPosts = [] := rfl

/-- Any country produced by the strategy dispatch is in the quota-filtered pool. -/
theorem selectResult_mem {strategy : String} {maxPosts : Nat} {countries : List Country}
    {posts : List Post} {monthStart r1 r2 : Nat} {c : Country}
    (h : selectResult strategy maxPosts countries posts monthStart r1 r2 = some c) :
    c ∈ availableCountries countries posts monthStart maxPosts := by
  unfold selectResult at h
  split at h
  · exact pchoice_mem h
  · split at h
    · cases hreg : pchoice (regionsOf (availableCountries countries posts monthStart maxPosts)) r1 with
      | none => rw [hreg] at h; exact absurd h (by simp)
      | some reg =>
        rw [hreg] at h
        exact (List.mem_filter.mp (pchoice_mem h)).1
    · exact absurd h (by simp)

/-- Under the two strategies whose branch completes (`random` and
`regional_focus`), a non-empty country list makes the dispatch succeed. -/
theorem selectResult_isSome {strategy : String} {maxPosts : Nat} {countries : List Country}
    {posts : List Post} {monthStart r1 r2 : Nat}
    (hstrat : strategy = "random" ∨ strategy = "regional_focus")
    (h : countries ≠ []) :
    (selectResult strategy maxPosts countries posts monthStart r1 r2).isSome = true := by
  have havail := @availableCountries_ne_nil countries posts monthStart maxPosts h
  unfold selectResult
  rcases hstrat with hs | hs
  · subst hs
    rw [if_pos (show ("random" == "random") = true from rfl)]
    exact pchoice_isSome _ havail
  · subst hs
    rw [if_neg (show ¬ (("regional_focus" == "random") = true) by decide),
      if_pos (show ("regional_focus" == "regional_focus") = true from rfl)]
    cases hreg : pchoice (regionsOf (availableCountries countries posts monthStart maxPosts)) r1 with
    | none =>
      have hrs : regionsOf (availableCountries countries posts monthStart maxPosts) ≠ [] := by
        rcases List.exists_mem_of_ne_nil _ havail with ⟨c, hc⟩
        exact List.ne_nil_of_mem (mem_regionsOf hc)
      have := pchoice_isSome r1 hrs
      rw [hreg] at this
      exact absurd this (by simp)
    | some reg =>
      have hmem := pchoice_mem hreg
      rcases regionsOf_exists_mem hmem with ⟨c, hc, hcr⟩
      have hcf : c ∈ (availableCountries countries posts monthStart maxPosts).filter
          (fun x => x.region == reg) :=
        List.mem_filter.mpr ⟨hc, by simp [hcr]⟩
      exact pchoice_isSome _ (List.ne_nil_of_mem hcf)

theorem selectResult_nil {strategy : String} {maxPosts : Nat}
    {posts : List Post} {monthStart r1 r2 : Nat} :
    selectResult strategy maxPosts [] posts monthStart r1 r2 = none := by
  unfold selectResult
  rw [availableCountries_nil]
  split
  · rfl
  · split
    · rfl
    · rfl

theorem availableCountries_eq_filter {countries : List Country} {posts : List Post}
    {monthStart maxPosts : Nat}
    (h : countries.filter (fun c => decide (monthlyCount posts monthStart c.id < maxPosts)) ≠ []) :
    availableCountries countries posts monthStart maxPosts =
      countries.filter (fun c => decide (monthlyCount posts monthStart c.id < maxPosts)) := by
  unfold availableCountries
  rw [if_neg]
  rw [List.isEmpty_eq_false.mpr h]
  exact Bool.false_ne_true

/-! ## Concrete fixtures used by witnesses and counterexamples -/

def kenya : Country := ⟨1, "Kenya", "Africa"⟩

def japan : Country := ⟨2, "Japan", "Asia"⟩

def mobileMoney : Technology := ⟨1, "Mobile Money", "Fintech"⟩

def digitalId : Technology := ⟨2, "Digital Identity", "Government"⟩

/-- Five posts for Japan (region Asia) published this month. -/
def asiaPosts : List Post :=
  [⟨2, 1, 100, "published", 1000, "t"⟩, ⟨2, 1, 101, "published", 1000, "t"⟩,
   ⟨2, 1, 102, "published", 1000, "t"⟩, ⟨2, 1, 103, "published", 1000, "t"⟩,
   ⟨2, 1, 104, "published", 1000, "t"⟩]

/-! ## Claim theorems -/

/-- C1: for every non-empty country set and any selection policy (any
strategy string, any monthly maximum), `select_daily_country` returns a
member of the given country set — never `none` and never an entity
outside it; it returns no country exactly when the country set is empty. -/
theorem select_daily_country_total_and_member
    (strategy : String) (maxPosts : Nat) (countries : List Country)
    (posts : List Post) (monthStart r1 r2 : Nat) :
    (countries = [] →
      select_daily_country strategy maxPosts countries posts monthStart r1 r2 = none)
    ∧ (countries ≠ [] →
      (select_daily_country strategy maxPosts countries posts monthStart r1 r2).isSome = true)
    ∧ (∀ c, select_daily_country strategy maxPosts countries posts monthStart r1 r2 = some c →
      c ∈ countries) := by
  refine ⟨?_, ?_, ?_⟩
  · intro h
    subst h
    unfold select_daily_country
    rw [selectResult_nil]
    exact pchoice_nil r2
  · intro h
    unfold select_daily_country
    cases hres : selectResult strategy maxPosts countries posts monthStart r1 r2 with
    | some c => rfl
    | none => exact pchoice_isSome r2 h
  · intro c hc
    unfold select_daily_country at hc
    cases hres : selectResult strategy maxPosts countries posts monthStart r1 r2 with
    | some c' =>
      rw [hres] at hc
      have : c' = c := Option.some.inj hc
      exact this ▸ availableCountries_subset (selectResult_mem hres)
    | none =>
      rw [hres] at hc
      exact pchoice_mem hc

theorem select_daily_country_total_and_member_witness :
    select_daily_country "balanced_regional" 4 [] [] 0 0 0 = none
    ∧ (select_daily_country "balanced_regional" 4 [kenya] [] 0 0 0).isSome = true
    ∧ kenya ∈ [kenya] :=
  ⟨(select_daily_country_total_and_member "balanced_regional" 4 [] [] 0 0 0).1 rfl,
   (select_daily_country_total_and_member "balanced_regional" 4 [kenya] [] 0 0 0).2.1
     (by decide),
   (select_daily_country_total_and_member "balanced_regional" 4 [kenya] [] 0 0 0).2.2 kenya
     (by decide)⟩

/-- C2 (amended): under the `random` and `regional_focus` strategies —
the only ones whose branch completes — if some country's count of posts
published since the start of the current month is strictly below the
monthly maximum, then the returned country's monthly count is strictly
below that maximum; and when every country is at or above the maximum the
fallback pool is the full country set, so (shown for the `random`
strategy) any country can be the returned one. Under any other strategy,
including the default `balanced_regional`, the branch raises and the
except handler ignores the quota (see the counterexample). -/
theorem select_daily_country_quota
    (strategy : String) (maxPosts : Nat) (countries : List Country)
    (posts : List Post) (monthStart r1 r2 : Nat) :
    ((strategy = "random" ∨ strategy = "regional_focus") →
      (∃ c ∈ countries, monthlyCount posts monthStart c.id < maxPosts) →
      ∀ c, select_daily_country strategy maxPosts countries posts monthStart r1 r2 = some c →
        monthlyCount posts monthStart c.id < maxPosts)
    ∧ ((∀ c ∈ countries, maxPosts ≤ monthlyCount posts monthStart c.id) →
      ∀ j, (hj : j < countries.length) →
        select_daily_country "random" maxPosts countries posts monthStart j r2 =
          some (countries.get ⟨j, hj⟩)) := by
  constructor
  · rintro hstrat ⟨c0, hc0, hlt⟩ c hc
    have hc0f : c0 ∈ countries.filter
        (fun c => decide (monthlyCount posts monthStart c.id < maxPosts)) :=
      List.mem_filter.mpr ⟨hc0, decide_eq_true hlt⟩
    have hfne := List.ne_nil_of_mem hc0f
    have hcne : countries ≠ [] := List.ne_nil_of_mem hc0
    unfold select_daily_country at hc
    cases hres : selectResult strategy maxPosts countries posts monthStart r1 r2 with
    | some c' =>
      rw [hres] at hc
      have hcc : c' = c := Option.some.inj hc
      have hmem := selectResult_mem hres
      rw [availableCountries_eq_filter hfne] at hmem
      have := (List.mem_filter.mp hmem).2
      exact of_decide_eq_true (hcc ▸ this)
    | none =>
      have := @selectResult_isSome strategy maxPosts countries posts monthStart r1 r2 hstrat hcne
      rw [hres] at this
      exact absurd this (by simp)
  · intro hall j hj
    have hfnil : countries.filter
        (fun c => decide (monthlyCount posts monthStart c.id < maxPosts)) = [] := by
      refine List.filter_eq_nil_iff.mpr ?_
      intro a ha
      simp only [decide_eq_true_eq, Nat.not_lt]
      exact hall a ha
    have havail : availableCountries countries posts monthStart maxPosts = countries := by
      unfold availableCountries
      rw [if_pos]
      rw [hfnil]
      rfl
    unfold select_daily_country
    have hres : selectResult "random" maxPosts countries posts monthStart j r2 =
        some (countries.get ⟨j, hj⟩) := by
      unfold selectResult
      rw [if_pos (by rfl)]
      rw [havail]
      exact pchoice_lt hj
    rw [hres]

theorem select_daily_country_quota_witness :
    monthlyCount [] 0 kenya.id < 4
    ∧ select_daily_country "random" 0 [kenya] [] 0 0 42 = some kenya :=
  ⟨(select_daily_country_quota "random" 4 [kenya] [] 0 0 0).1
      (Or.inl rfl) ⟨kenya, by decide, by decide⟩ kenya (by decide),
   (select_daily_country_quota "random" 0 [kenya] [] 0 0 42).2
      (fun c _ => Nat.zero_le _) 0 (by decide)⟩

/-- Kenya already has one post this month. -/
def kenyaMonthlyPost : List Post := [⟨1, 1, 100, "published", 1000, "t"⟩]

/-- C2 counterexample: under the default `balanced_regional` strategy,
Kenya is at the quota (1 post this month, maximum 1) while Japan is below
it, yet the selector returns Kenya: the branch raises (`sum` over the int
from `.count()`) and the except handler chooses from ALL countries,
ignoring the quota. -/
theorem select_daily_country_quota_counterexample :
    select_daily_country "balanced_regional" 1 [kenya, japan] kenyaMonthlyPost 0 0 0 = some kenya
    ∧ ¬ monthlyCount kenyaMonthlyPost 0 kenya.id < 1
    ∧ monthlyCount kenyaMonthlyPost 0 japan.id < 1 := by decide

theorem availableTechs_subset {country : Country} {techs : List Technology}
    {posts : List Post} {now : Nat} {t : Technology}
    (h : t ∈ availableTechs country techs posts now) : t ∈ techs := by
  unfold availableTechs at h
  split at h
  · exact h
  · exact (List.mem_filter.mp h).1

theorem techResult_mem {country : Country} {techs : List Technology}
    {posts : List Post} {now r1 : Nat} {t : Technology}
    (h : techResult country techs posts now r1 = some t) :
    t ∈ availableTechs country techs posts now := by
  unfold techResult at h
  split at h
  · exact (List.mem_filter.mp (pchoice_mem h)).1
  · exact pchoice_mem h

theorem techResult_isSome {country : Country} {techs : List Technology}
    {posts : List Post} {now r1 : Nat}
    (h : availableTechs country techs posts now ≠ []) :
    (techResult country techs posts now r1).isSome = true := by
  unfold techResult
  split
  · next hp =>
    refine pchoice_isSome r1 ?_
    intro hnil
    rw [hnil] at hp
    exact absurd hp (by decide)
  · exact pchoice_isSome r1 h

/-- C3: the `balanced_regional` branch never completes in the source â
`sum()` over the int from `.count()` (content_generator.py:87) raises
`TypeError` on every run â so the default-strategy selection is really
the except handler's uniform choice over ALL countries: here Japan
(monthly count 5, region Asia) is returned even though Kenya (monthly
count 0, region Africa) is eligible with a strictly lower regional sum,
violating the claimed regional balance. -/
theorem balanced_regional_fallback_ignores_balance :
    select_daily_country "balanced_regional" 8 [kenya, japan] asiaPosts 0 0 1 = some japan
    ∧ monthlyCount asiaPosts 0 japan.id = 5
    ∧ monthlyCount asiaPosts 0 kenya.id = 0
    ∧ monthlyCount asiaPosts 0 kenya.id < 8 := by decide

/-- Both technologies were used for Kenya within the last 30 days. -/
def recentBoth : List Post :=
  [⟨1, 1, 100000, "published", 1000, "t"⟩, ⟨1, 2, 100000, "published", 1000, "t"⟩]

/-- Only technology 1 was used for Kenya within the last 30 days. -/
def recentOne : List Post := [⟨1, 1, 100000, "published", 1000, "t"⟩]

/-- C4 counterexample: with two technologies on offer, both used for the
country within the cooldown window, `select_technology_for_country`
returns a technology that is inside the window even though it is not the
only technology available. -/
theorem select_technology_cooldown_counterexample :
    select_technology_for_country kenya [mobileMoney, digitalId] recentBoth 100000 0 =
      some mobileMoney
    ∧ mobileMoney.id ∈ recentTechIds kenya recentBoth 100000
    ∧ ([mobileMoney, digitalId] : List Technology).length = 2 := by decide

/-- C4 (amended): a technology used for the country within the cooldown
window (30 days in the source) is never returned as long as some
technology outside the window remains; only when every technology has
been used within the window does the fallback allow a recently-used one. -/
theorem select_technology_cooldown
    (country : Country) (techs : List Technology) (posts : List Post) (now r1 : Nat)
    (h : ∃ t ∈ techs, ¬ t.id ∈ recentTechIds country posts now) :
    ∀ t, select_technology_for_country country techs posts now r1 = some t →
      t ∈ techs ∧ ¬ t.id ∈ recentTechIds country posts now := by
  rcases h with ⟨t0, ht0, ht0r⟩
  have ht0f : t0 ∈ techs.filter
      (fun t => !((recentTechIds country posts now).contains t.id)) := by
    refine List.mem_filter.mpr ⟨ht0, ?_⟩
    have : (recentTechIds country posts now).contains t0.id = false := by
      cases hcon : (recentTechIds country posts now).contains t0.id with
      | false => rfl
      | true => exact absurd (List.elem_iff.mp hcon) ht0r
    rw [this]
    rfl
  have hfne := List.ne_nil_of_mem ht0f
  have havail : availableTechs country techs posts now = techs.filter
      (fun t => !((recentTechIds country posts now).contains t.id)) := by
    unfold availableTechs
    rw [if_neg]
    rw [List.isEmpty_eq_false.mpr hfne]
    exact Bool.false_ne_true
  intro t ht
  unfold select_technology_for_country at ht
  cases htr : techResult country techs posts now r1 with
  | none =>
    have := @techResult_isSome country techs posts now r1 (havail ▸ hfne)
    rw [htr] at this
    exact absurd this (by simp)
  | some t' =>
    rw [htr] at ht
    have htt : t' = t := Option.some.inj ht
    have hmem := techResult_mem htr
    rw [havail] at hmem
    have h1 := (List.mem_filter.mp hmem).1
    have h2 := (List.mem_filter.mp hmem).2
    refine ⟨htt ▸ h1, ?_⟩
    intro hrec
    have : (recentTechIds country posts now).contains t.id = true :=
      List.elem_iff.mpr hrec
    rw [htt] at h2
    rw [this] at h2
    exact absurd h2 (by decide)

theorem select_technology_cooldown_witness :
    digitalId ∈ ([mobileMoney, digitalId] : List Technology)
    ∧ ¬ digitalId.id ∈ recentTechIds kenya recentOne 100000 :=
  select_technology_cooldown kenya [mobileMoney, digitalId] recentOne 100000 0
    ⟨digitalId, by decide, by decide⟩ digitalId (by decide)

/-- C5: on a well-formed draft the gate accepts iff the word count is at
least 800, at least 2 of the 4 fixed keywords occur as case-insensitive
substrings of the body, and the title has at least 20 characters; in
particular a draft with exactly 799 words is rejected regardless of body
and title, and a concrete draft with exactly 800 words, 2 matching
keywords and a 20+-character title is accepted. -/
theorem quality_check_iff :
    (∀ (wc : Int) (body title : String),
      _quality_check ⟨some (.vint wc), some (.vstr body), some (.vstr title)⟩ = true
      ↔ (800 ≤ wc
        ∧ 2 ≤ (required_keywords.filter (fun k => strContains (lowerChars body) k)).length
        ∧ 20 ≤ title.length))
    ∧ (∀ (body title : String),
      _quality_check ⟨some (.vint 799), some (.vstr body), some (.vstr title)⟩ = false)
    ∧ _quality_check ⟨some (.vint 800), some (.vstr "GDP and the economy"),
        some (.vstr "How Mobile Money Changes Everything")⟩ = true := by
  refine ⟨?_, fun _ _ => rfl, by decide⟩
  intro wc body title
  constructor
  · intro h
    by_cases h1 : wc < 800
    · exact absurd h (by simp [_quality_check, h1])
    · by_cases h2 : (required_keywords.filter (fun k => strContains (lowerChars body) k)).length < 2
      · exact absurd h (by simp [_quality_check, h1, h2])
      · by_cases h3 : title.length < 20
        · exact absurd h (by simp [_quality_check, h1, h2, h3])
        · exact ⟨Int.not_lt.mp h1, Nat.not_lt.mp h2, Nat.not_lt.mp h3⟩
  · rintro ⟨g1, g2, g3⟩
    have h1 : ¬ wc < 800 := Int.not_lt.mpr g1
    have h2 : ¬ (required_keywords.filter (fun k => strContains (lowerChars body) k)).length < 2 :=
      Nat.not_lt.mpr g2
    have h3 : ¬ title.length < 20 := Nat.not_lt.mpr g3
    simp [_quality_check, h1, h2, h3]

/-- C9: the fallback placeholder draft has the fixed word count 50, which
is below the 800-word floor of the gate, so the quality gate rejects it
for every country and technology — the fallback can never pass the gate. -/
theorem fallback_content_rejected (c : Country) (t : Technology) :
    (_generate_fallback_content c t).word_count = 50
    ∧ _quality_check (_generate_fallback_content c t).toDict = false :=
  ⟨rfl, rfl⟩

/-- C10: the quality check is total — it returns a boolean on every input
dictionary, every internal error being caught — and fail-closed: a draft
missing the `word_count`, `content` or `title` key, or whose `word_count`
is a non-comparable (string) value, is rejected. -/
theorem quality_check_fail_closed (d : DraftDict) :
    (_quality_check d = true ∨ _quality_check d = false)
    ∧ ((d.word_count = none ∨ (∃ s, d.word_count = some (.vstr s))
        ∨ d.content = none ∨ d.title = none) → _quality_check d = false) := by
  refine ⟨?_, ?_⟩
  · cases h : _quality_check d
    · exact Or.inr rfl
    · exact Or.inl rfl
  · intro h
    obtain ⟨wc, body, title⟩ := d
    rcases h with h | ⟨s, hs⟩ | h | h
    · simp only at h
      subst h
      rfl
    · simp only at hs
      subst hs
      rfl
    · simp only at h
      subst h
      cases wc with
      | none => rfl
      | some v =>
        cases v with
        | vstr s => rfl
        | vint n =>
          by_cases hn : n < 800
          · simp [_quality_check, hn]
          · simp [_quality_check, hn]
    · simp only at h
      subst h
      cases wc with
      | none => rfl
      | some v =>
        cases v with
        | vstr s => rfl
        | vint n =>
          by_cases hn : n < 800
          · simp [_quality_check, hn]
          · cases body with
            | none => simp [_quality_check, hn]
            | some bv =>
              cases bv with
              | vint m => simp [_quality_check, hn]
              | vstr b =>
                by_cases hk : (required_keywords.filter
                    (fun k => strContains (lowerChars b) k)).length < 2
                · simp [_quality_check, hn, hk]
                · simp [_quality_check, hn, hk]

theorem quality_check_fail_closed_witness :
    _quality_check ⟨none, none, none⟩ = false :=
  (quality_check_fail_closed ⟨none, none, none⟩).2 (Or.inl rfl)

/-! ## Daily-cycle fixtures and lemmas -/

def cfgOn : Config := ⟨true, "balanced_regional", 4⟩

/-- A draft that passes the quality gate. -/
def okDraft : Draft := ⟨"How Mobile Money Changes Everything", "gdp and economy growth", 1000⟩

def okGen : Country → Technology → Option Draft := fun _ _ => some okDraft

/-- A generator that always fails (raises), forcing the fallback draft. -/
def failGen : Country → Technology → Option Draft := fun _ _ => none

/-- `_create_blog_post` always raises: `word_count` is not a `BlogPost`
column, so the kwarg check fails on every input. -/
theorem create_blog_post_raises (c : Country) (t : Technology) (d : Draft) (now : Nat) :
    _create_blog_post c t d now = Except.error () := rfl

/-- C6: no daily run ever inserts a post record â `_create_blog_post`
raises `TypeError` on its invalid `BlogPost` keyword arguments and the
outer except aborts the cycle â so the cycle leaves every store
unchanged, and running it twice on the same calendar day over a populated
store that can pass selection and gating still yields zero (not exactly
one) post records dated that day. -/
theorem daily_cycle_never_inserts :
    (∀ (cfg : Config) (countries : List Country) (techs : List Technology)
      (gen : Country → Technology → Option Draft) (monthStart now r1 r2 r3 : Nat)
      (posts : List Post),
      _generate_daily_post cfg countries techs gen monthStart now r1 r2 r3 posts = posts)
    ∧ postsDatedCount
        (_generate_daily_post cfgOn [kenya] [mobileMoney] okGen 0 720 1 2 3
          (_generate_daily_post cfgOn [kenya] [mobileMoney] okGen 0 720 0 0 0 []))
        (dateOf 720) = 0 := by
  constructor
  · intro cfg countries techs gen monthStart now r1 r2 r3 posts
    unfold _generate_daily_post
    cases hen : cfg.daily_posting_enabled with
    | false => rw [Bool.not_false, if_pos rfl]
    | true =>
      rw [Bool.not_true, if_neg Bool.false_ne_true]
      cases hany : posts.any (fun p => dateOf p.published_at == dateOf now) with
      | true => rw [if_pos rfl]
      | false =>
        rw [if_neg Bool.false_ne_true]
        cases hsel : select_daily_country cfg.strategy cfg.maxPosts countries posts
            monthStart r1 r2 with
        | none => rfl
        | some c =>
          cases htech : select_technology_for_country c techs posts now r3 with
          | none => simp only [htech]
          | some t =>
            cases hq : _quality_check (draftOf gen c t).toDict with
            | false => simp [htech, hq]
            | true => simp [htech, hq, create_blog_post_raises]
  · decide

set_option maxRecDepth 16384 in
/-- C7: when the draft generator fails, the daily cycle substitutes the
fallback placeholder draft and continues to the quality gate, but the
gate rejects that draft (its word count is the constant 50 < 800), so the
cycle persists nothing — contrary to the spec's stated liveness intent
(and to the fallback's own text) the failed cycle produces no post. -/
theorem generation_failure_persists_nothing :
    _generate_daily_post cfgOn [kenya] [mobileMoney] failGen 0 720 0 0 0 [] = []
    ∧ draftOf failGen kenya mobileMoney = _generate_fallback_content kenya mobileMoney
    ∧ _quality_check (draftOf failGen kenya mobileMoney).toDict = false := by
  decide

/-- C8: the manual trigger never persists anything: for every invocation
(any ids, store, generator and randomness) the `TypeError` raised by
`_create_blog_post` on its invalid `BlogPost` keyword arguments is caught
by the except at scheduler.py:483-485, so the result is the unchanged
store with `success = False` — the claimed unconditional persistence
(bypassing the gate and the already-posted-today check) never happens. -/
theorem manual_trigger_never_persists (countryId techId : Option Nat) (cfg : Config)
    (countries : List Country) (techs : List Technology)
    (gen : Country → Technology → Option Draft) (monthStart now r1 r2 r3 : Nat)
    (posts : List Post) :
    trigger_manual_generation countryId techId cfg countries techs gen
      monthStart now r1 r2 r3 posts = (posts, false) := by
  cases hm : manualCountry countryId cfg countries posts monthStart r1 r2 with
  | none => simp only [trigger_manual_generation, hm]
  | some c =>
    cases ht : manualTech techId c techs posts now r3 with
    | none => simp only [trigger_manual_generation, hm, ht]
    | some t => simp only [trigger_manual_generation, hm, ht, create_blog_post_raises]

end TechBlog
